import Mathlib

/-!
Verification of the Options Analytics Toolkit specification against the
repository's Python sources (`options_learning_guide.py`, `options_scanner.py`,
`advanced_options_trading.py`).

Python floats are idealized as exact rationals (`ℚ`) for the arithmetic the
scripts perform, lifted to `ℝ` where the volatility-rank computation takes
square roots.  A Python expression that raises an exception at some input
(a float division by zero) is embedded as an `Option` returning `none` there.
-/

/- ## Payoff evaluator
   From `options_learning_guide.py`, `lesson_2_analyze_call_option` and
   `lesson_3_analyze_put_option`:
     option_value = max(stock_price - strike, 0)          (call)
     option_value = max(strike - stock_price, 0)          (put)
     profit_loss  = option_value - premium                (long)
     pl_pct       = (profit_loss / premium) * 100
-/

/-- Call option value at expiration: `max(stock_price - strike, 0)`. -/
def call_option_value (strike price : ℚ) : ℚ := max (price - strike) 0

/-- Put option value at expiration: `max(strike - stock_price, 0)`. -/
def put_option_value (strike price : ℚ) : ℚ := max (strike - price) 0

/-- Long-position profit/loss: `option_value - premium`. -/
def long_profit_loss (option_value premium : ℚ) : ℚ := option_value - premium

/-- Profit/loss over the hypothetical-price scenarios of lesson 2 (long call). -/
def call_scenario_profits (strike premium : ℚ) (prices : List ℚ) : List ℚ :=
  prices.map fun p => long_profit_loss (call_option_value strike p) premium

/-- Profit/loss over the hypothetical-price scenarios of lesson 3 (long put). -/
def put_scenario_profits (strike premium : ℚ) (prices : List ℚ) : List ℚ :=
  prices.map fun p => long_profit_loss (put_option_value strike p) premium

/-- The source computes `pl_pct = (profit_loss / premium) * 100` with Python
floats; at `premium = 0` that float division raises `ZeroDivisionError`,
embedded here as `none`. -/
def profit_loss_pct (profit_loss premium : ℚ) : Option ℚ :=
  if premium = 0 then none else some (profit_loss / premium * 100)

/- ## Moneyness labeling
   From `options_scanner.py`, `analyze_options_chain`.  For calls:
     distance = call.strike_price - price
     if abs(distance) < price * 0.15:        # display window
         if distance < -5:        moneyness = ITM
         elif abs(distance) < 2:  moneyness = ATM
         else:                    moneyness = OTM
   For puts the same branches run on `distance = price - put.strike_price`.
   Outside the display window no label is assigned (`none`).
-/

inductive Moneyness where
  | ITM
  | ATM
  | OTM
deriving DecidableEq, Repr

/-- Moneyness label the chain analyzer assigns to a displayed call. -/
def call_moneyness (strike price : ℚ) : Option Moneyness :=
  if |strike - price| < price * 0.15 then
    some (if strike - price < -5 then Moneyness.ITM
          else if |strike - price| < 2 then Moneyness.ATM
          else Moneyness.OTM)
  else none

/-- Moneyness label the chain analyzer assigns to a displayed put. -/
def put_moneyness (strike price : ℚ) : Option Moneyness :=
  if |price - strike| < price * 0.15 then
    some (if price - strike < -5 then Moneyness.ITM
          else if |price - strike| < 2 then Moneyness.ATM
          else Moneyness.OTM)
  else none

/- ## Premium estimator heuristics
   From `advanced_options_trading.py`:
     advanced_2_covered_call_strategy:
       est_premium = max(0.5, distance * 0.1) * 100        # distance = strike - price
     advanced_3_protective_put_strategy:
       est_premium = max(1.0, distance * 0.15
                          + (days_to_exp / 365) * current_price * 0.02) * 100
                                                           # distance = price - strike
-/

/-- Per-contract premium the covered-call walkthrough estimates. -/
def covered_call_est_premium (strike price : ℚ) : ℚ :=
  max 0.5 ((strike - price) * 0.1) * 100

/-- Per-contract premium the protective-put walkthrough estimates. -/
def protective_put_est_premium (strike price days_to_exp : ℚ) : ℚ :=
  max 1.0 ((price - strike) * 0.15 + days_to_exp / 365 * price * 0.02) * 100

/- ## Volatility-rank proxy
   From `options_scanner.py`, `calculate_iv_rank(symbol, days=30)`:
     if not bars or len(bars) < 20: return None
     closes  = [bar.close for bar in bars]
     returns = [(closes[i] - closes[i-1]) / closes[i-1] for i in range(1, len(closes))]
     recent_vol = pd.Series(returns[-days:]).std() * (252 ** 0.5) * 100
     all_vol    = pd.Series(returns).std() * (252 ** 0.5) * 100
     return min(100, max(0, (recent_vol / all_vol) * 100))
   except: return None
   The close-price series is the input here (the bar fetch is external I/O).
   `pd.Series.std` is the sample standard deviation (ddof = 1).  When a close
   before the last is zero the Python float division in the returns
   comprehension raises `ZeroDivisionError`, which the bare `except` turns
   into `None`; that path is the second guard below.  When both volatilities
   are zero the NumPy quotient is NaN and `min(100, max(0, nan))` evaluates
   to 0 in Python, which agrees with the convention `0 / 0 = 0` of `ℝ` used
   here, so the embedding returns the same rank on that path.
-/

/-- Daily simple returns `(closes[i] - closes[i-1]) / closes[i-1]`. -/
def daily_returns (closes : List ℚ) : List ℚ :=
  List.zipWith (fun prev next => (next - prev) / prev) closes closes.tail

/-- Arithmetic mean of a series. -/
def series_mean (xs : List ℚ) : ℚ := xs.sum / xs.length

/-- Sample variance with ddof = 1, as `pd.Series.std` squares it. -/
def sample_variance (xs : List ℚ) : ℚ :=
  (xs.map fun x => (x - series_mean xs) ^ 2).sum / ((xs.length : ℚ) - 1)

/-- Sample standard deviation, `pd.Series.std`. -/
noncomputable def sample_std (xs : List ℚ) : ℝ :=
  Real.sqrt ((sample_variance xs : ℚ) : ℝ)

/-- Python's slice `xs[-n:]`: the last `n` elements, the whole list when
`n = 0` or `n ≥ len(xs)`. -/
def last_slice (n : ℕ) (xs : List ℚ) : List ℚ :=
  if n = 0 then xs else xs.drop (xs.length - n)

/-- Annualized percent volatility `std * (252 ** 0.5) * 100`. -/
noncomputable def annualized_vol (xs : List ℚ) : ℝ :=
  sample_std xs * Real.sqrt 252 * 100

/-- The rank expression `min(100, max(0, (recent_vol / all_vol) * 100))`. -/
noncomputable def iv_rank_value (closes : List ℚ) (days : ℕ) : ℝ :=
  min 100 (max 0
    (annualized_vol (last_slice days (daily_returns closes)) /
      annualized_vol (daily_returns closes) * 100))

/-- The embedded `calculate_iv_rank` on a fetched close series. -/
noncomputable def calculate_iv_rank (closes : List ℚ) (days : ℕ) : Option ℝ :=
  if closes.length < 20 then none
  else if 0 ∈ closes.dropLast then none
  else some (iv_rank_value closes days)

/-- Clamp of the specification: `clamp(x, lo, hi)`. -/
noncomputable def clamp (x lo hi : ℝ) : ℝ := min hi (max lo x)

/-- Volatility rank as the specification words it, steps (1)-(4): daily simple
returns, annualized sample deviation of the last `window` returns and of all
returns, and `clamp(recent_vol / full_vol * 100, 0, 100)`. -/
noncomputable def spec_volatility_rank (closes : List ℚ) (window : ℕ) : ℝ :=
  clamp
    (sample_std ((daily_returns closes).drop ((daily_returns closes).length - window))
        * Real.sqrt 252 * 100 /
      (sample_std (daily_returns closes) * Real.sqrt 252 * 100) * 100)
    0 100

/- ## Helper lemmas -/

/-- Length of the daily-return series: one less than the close series. -/
theorem daily_returns_length (closes : List ℚ) :
    (daily_returns closes).length = closes.length - 1 := by
  simp only [daily_returns, List.length_zipWith, List.length_tail]
  omega

/-- Sample variance is positive once the series holds two different values. -/
theorem sample_variance_pos (xs : List ℚ)
    (h : ∃ x ∈ xs, ∃ y ∈ xs, x ≠ y) : 0 < sample_variance xs := by
  obtain ⟨a, ha, b, hb, hab⟩ := h
  have h2 : 2 ≤ xs.length := by
    rcases xs with _ | ⟨c, _ | ⟨d, tl⟩⟩
    · cases ha
    · simp only [List.mem_singleton] at ha hb
      exact absurd (ha.trans hb.symm) hab
    · simp only [List.length_cons]
      omega
  have hone : a ≠ series_mean xs ∨ b ≠ series_mean xs := by
    by_contra hcon
    push_neg at hcon
    exact hab (hcon.1.trans hcon.2.symm)
  have key : ∀ z ∈ xs, z ≠ series_mean xs →
      0 < (xs.map fun x => (x - series_mean xs) ^ 2).sum := by
    intro z hz hzm
    have hmem : (z - series_mean xs) ^ 2 ∈ xs.map fun x => (x - series_mean xs) ^ 2 :=
      List.mem_map_of_mem _ hz
    have hzero : z - series_mean xs ≠ 0 := sub_ne_zero.mpr hzm
    have hpos : 0 < (z - series_mean xs) ^ 2 :=
      lt_of_le_of_ne (sq_nonneg _) (Ne.symm (pow_ne_zero 2 hzero))
    have hle : (z - series_mean xs) ^ 2 ≤ (xs.map fun x => (x - series_mean xs) ^ 2).sum :=
      List.single_le_sum (fun y hy => by
        obtain ⟨w, _, rfl⟩ := List.mem_map.mp hy
        exact sq_nonneg _) _ hmem
    linarith
  have hnum : 0 < (xs.map fun x => (x - series_mean xs) ^ 2).sum := by
    rcases hone with h | h
    · exact key a ha h
    · exact key b hb h
  have hden : 0 < (xs.length : ℚ) - 1 := by
    have hcast : (2:ℚ) ≤ (xs.length : ℚ) := by exact_mod_cast h2
    linarith
  unfold sample_variance
  exact div_pos hnum hden

/-- Unfolding step of the return series. -/
theorem daily_returns_cons_cons (c x : ℚ) (rest : List ℚ) :
    daily_returns (c :: x :: rest) = (x - c) / c :: daily_returns (x :: rest) := rfl

/-- Constant closes produce all-zero returns. -/
theorem daily_returns_replicate (n : ℕ) (c : ℚ) :
    daily_returns (List.replicate (n + 1) c) = List.replicate n 0 := by
  induction n with
  | zero => rfl
  | succ k ih =>
    have h := daily_returns_cons_cons c c (List.replicate k c)
    rw [show (c :: List.replicate k c) = List.replicate (k + 1) c from rfl] at h
    rw [show List.replicate (k + 1 + 1) c = c :: List.replicate (k + 1) c from rfl, h, ih]
    simp [List.replicate_succ]

/-- Constant closes with one final jump: zero returns then one jump return. -/
theorem daily_returns_replicate_append (n : ℕ) (c d : ℚ) :
    daily_returns (List.replicate (n + 1) c ++ [d]) =
      List.replicate n 0 ++ [(d - c) / c] := by
  induction n with
  | zero => rfl
  | succ k ih =>
    have hsplit : List.replicate (k + 1 + 1) c ++ [d] =
        c :: c :: (List.replicate k c ++ [d]) := by
      simp [List.replicate_succ]
    have hinner : (c :: (List.replicate k c ++ [d])) =
        List.replicate (k + 1) c ++ [d] := by
      simp [List.replicate_succ]
    rw [hsplit, daily_returns_cons_cons, hinner, ih]
    simp [List.replicate_succ]

/-- Sample variance of an all-zero series is zero. -/
theorem sample_variance_replicate_zero (n : ℕ) :
    sample_variance (List.replicate n (0:ℚ)) = 0 := by
  simp [sample_variance, series_mean, List.map_replicate, List.sum_replicate]

/- ## Claims C1 and C2: payoff evaluation -/

/-- Claim C1: the payoff evaluation computes option value at expiration as
`max(P - K, 0)` for a CALL and `max(K - P, 0)` for a PUT (hence never
negative), long `profit_loss` is intrinsic value minus premium, and the two
worked examples of the spec (strike 100, premium 3) produce the listed
profit/loss rows. -/
theorem payoff_evaluation_spec (K p P : ℚ) (hK : 0 < K) (hp : 0 ≤ p) (hP : 0 ≤ P) :
    call_option_value K P = max (P - K) 0 ∧
    put_option_value K P = max (K - P) 0 ∧
    0 ≤ call_option_value K P ∧
    0 ≤ put_option_value K P ∧
    long_profit_loss (call_option_value K P) p = call_option_value K P - p ∧
    long_profit_loss (put_option_value K P) p = put_option_value K P - p ∧
    call_scenario_profits 100 3 [90, 100, 103, 108, 113] = [-3, -3, 0, 5, 10] ∧
    put_scenario_profits 100 3 [113, 108, 100, 97, 90] = [-3, -3, -3, 0, 7] := by
  refine ⟨rfl, rfl, le_max_right _ _, le_max_right _ _, rfl, rfl, ?_, ?_⟩
  · norm_num [call_scenario_profits, call_option_value, long_profit_loss, max_def]
  · norm_num [put_scenario_profits, put_option_value, long_profit_loss, max_def]

theorem payoff_evaluation_spec_witness :
    (0:ℚ) < 100 ∧ (0:ℚ) ≤ 3 ∧ (0:ℚ) ≤ 90 ∧
    call_scenario_profits 100 3 [90, 100, 103, 108, 113] = [-3, -3, 0, 5, 10] :=
  ⟨by decide, by decide, by decide,
    (payoff_evaluation_spec 100 3 90 (by decide) (by decide) (by decide)).2.2.2.2.2.2.1⟩

/-- Claim C2: with strike and premium fixed, long-call profit/loss is
non-decreasing in the hypothetical price and long-put profit/loss is
non-increasing. -/
theorem long_profit_loss_monotone (K p P₁ P₂ : ℚ) (hK : 0 < K) (hp : 0 ≤ p)
    (h12 : P₁ ≤ P₂) :
    long_profit_loss (call_option_value K P₁) p ≤
      long_profit_loss (call_option_value K P₂) p ∧
    long_profit_loss (put_option_value K P₂) p ≤
      long_profit_loss (put_option_value K P₁) p := by
  constructor
  · exact sub_le_sub_right (max_le_max (sub_le_sub_right h12 K) le_rfl) p
  · exact sub_le_sub_right (max_le_max (sub_le_sub_left h12 K) le_rfl) p

theorem long_profit_loss_monotone_witness :
    long_profit_loss (call_option_value 100 95) 3 ≤
      long_profit_loss (call_option_value 100 108) 3 ∧
    long_profit_loss (put_option_value 100 108) 3 ≤
      long_profit_loss (put_option_value 100 95) 3 :=
  long_profit_loss_monotone 100 3 95 108 (by decide) (by decide) (by decide)

/- ## Claims C6 and C7: moneyness labeling -/

/-- Claim C6, counterexample: the call at strike 97 with the underlying at 100
has intrinsic value 3 > 0 yet the chain analyzer labels it OTM. -/
theorem call_moneyness_positive_intrinsic_otm :
    call_moneyness 97 100 = some Moneyness.OTM ∧ 0 < call_option_value 97 100 := by
  constructor
  · norm_num [call_moneyness, abs_of_nonpos]
  · norm_num [call_option_value, max_def]

/-- Claim C6 as amended: a displayed call more than $5 in the money (intrinsic
value above the analyzer's $5 ITM threshold) is never labeled OTM. -/
theorem call_moneyness_deep_itm_never_otm (strike price : ℚ) (m : Moneyness)
    (hm : call_moneyness strike price = some m)
    (h5 : 5 < call_option_value strike price) : m ≠ Moneyness.OTM := by
  have hd : strike - price < -5 := by
    have h1 : 5 < price - strike := by
      by_contra hcon
      push_neg at hcon
      have hle : call_option_value strike price ≤ 5 := max_le hcon (by norm_num)
      linarith
    linarith
  unfold call_moneyness at hm
  by_cases hw : |strike - price| < price * 0.15
  · rw [if_pos hw, if_pos hd] at hm
    cases hm
    intro h
    cases h
  · rw [if_neg hw] at hm
    cases hm

theorem call_moneyness_deep_itm_never_otm_witness :
    call_moneyness 90 100 = some Moneyness.ITM ∧ Moneyness.ITM ≠ Moneyness.OTM := by
  have h1 : call_moneyness 90 100 = some Moneyness.ITM := by
    norm_num [call_moneyness, abs_of_nonpos]
  refine ⟨h1, call_moneyness_deep_itm_never_otm 90 100 Moneyness.ITM h1 ?_⟩
  norm_num [call_option_value, max_def]

/-- Claim C7, counterexample: the spec classifier requires OTM exactly when
strike exceeds price, but the chain analyzer labels the strike-96 call OTM
with the underlying at 100. -/
theorem moneyness_exact_spec_fails :
    call_moneyness 96 100 = some Moneyness.OTM ∧ (96 : ℚ) < 100 := by
  constructor
  · norm_num [call_moneyness, abs_of_nonpos]
  · norm_num

/-- Claim C7 as amended: within the 15% display window the analyzer uses fixed
dollar thresholds; a call is ITM iff strike < price - 5, ATM iff
`|strike - price| < 2`, and OTM iff it is neither, with the same thresholds
applied to the inverted distance `price - strike` for puts. -/
theorem moneyness_fixed_thresholds (strike price : ℚ) (mc mp : Moneyness)
    (hc : call_moneyness strike price = some mc)
    (hp : put_moneyness strike price = some mp) :
    ((mc = Moneyness.ITM ↔ strike - price < -5) ∧
     (mc = Moneyness.ATM ↔ -5 ≤ strike - price ∧ |strike - price| < 2) ∧
     (mc = Moneyness.OTM ↔ -5 ≤ strike - price ∧ 2 ≤ |strike - price|)) ∧
    ((mp = Moneyness.ITM ↔ price - strike < -5) ∧
     (mp = Moneyness.ATM ↔ -5 ≤ price - strike ∧ |price - strike| < 2) ∧
     (mp = Moneyness.OTM ↔ -5 ≤ price - strike ∧ 2 ≤ |price - strike|)) := by
  constructor
  · unfold call_moneyness at hc
    by_cases hw : |strike - price| < price * 0.15
    · rw [if_pos hw] at hc
      have hc' := (Option.some.injEq _ _).mp hc
      by_cases h1 : strike - price < -5
      · rw [if_pos h1] at hc'
        subst hc'
        refine ⟨by simp [h1], ?_, ?_⟩
        · simp only [false_iff, show Moneyness.ITM ≠ Moneyness.ATM from by decide,
            iff_false]
          intro h
          linarith [h.1]
        · simp only [show Moneyness.ITM ≠ Moneyness.OTM from by decide, false_iff,
            iff_false]
          intro h
          linarith [h.1]
      · rw [if_neg h1] at hc'
        push_neg at h1
        by_cases h2 : |strike - price| < 2
        · rw [if_pos h2] at hc'
          subst hc'
          refine ⟨by simp [not_lt.mpr h1], by simp [h1, h2], ?_⟩
          simp only [show Moneyness.ATM ≠ Moneyness.OTM from by decide, false_iff]
          intro h
          linarith [h.2, h2]
        · rw [if_neg h2] at hc'
          subst hc'
          push_neg at h2
          exact ⟨by simp [not_lt.mpr h1], by simpa [h1] using not_lt.mpr h2,
            by simp [h1, h2]⟩
    · rw [if_neg hw] at hc
      cases hc
  · unfold put_moneyness at hp
    by_cases hw : |price - strike| < price * 0.15
    · rw [if_pos hw] at hp
      have hp' := (Option.some.injEq _ _).mp hp
      by_cases h1 : price - strike < -5
      · rw [if_pos h1] at hp'
        subst hp'
        refine ⟨by simp [h1], ?_, ?_⟩
        · simp only [show Moneyness.ITM ≠ Moneyness.ATM from by decide, false_iff]
          intro h
          linarith [h.1]
        · simp only [show Moneyness.ITM ≠ Moneyness.OTM from by decide, false_iff]
          intro h
          linarith [h.1]
      · rw [if_neg h1] at hp'
        push_neg at h1
        by_cases h2 : |price - strike| < 2
        · rw [if_pos h2] at hp'
          subst hp'
          refine ⟨by simp [not_lt.mpr h1], by simp [h1, h2], ?_⟩
          simp only [show Moneyness.ATM ≠ Moneyness.OTM from by decide, false_iff]
          intro h
          linarith [h.2, h2]
        · rw [if_neg h2] at hp'
          subst hp'
          push_neg at h2
          exact ⟨by simp [not_lt.mpr h1], by simpa [h1] using not_lt.mpr h2,
            by simp [h1, h2]⟩
    · rw [if_neg hw] at hp
      cases hp

theorem moneyness_fixed_thresholds_witness :
    ((Moneyness.OTM = Moneyness.ITM ↔ (98:ℚ) - 100 < -5) ∧
     (Moneyness.OTM = Moneyness.ATM ↔ -5 ≤ (98:ℚ) - 100 ∧ |(98:ℚ) - 100| < 2) ∧
     (Moneyness.OTM = Moneyness.OTM ↔ -5 ≤ (98:ℚ) - 100 ∧ 2 ≤ |(98:ℚ) - 100|)) ∧
    ((Moneyness.OTM = Moneyness.ITM ↔ (100:ℚ) - 98 < -5) ∧
     (Moneyness.OTM = Moneyness.ATM ↔ -5 ≤ (100:ℚ) - 98 ∧ |(100:ℚ) - 98| < 2) ∧
     (Moneyness.OTM = Moneyness.OTM ↔ -5 ≤ (100:ℚ) - 98 ∧ 2 ≤ |(100:ℚ) - 98|)) :=
  moneyness_fixed_thresholds 98 100 Moneyness.OTM Moneyness.OTM
    (by norm_num [call_moneyness, abs_of_nonpos])
    (by norm_num [put_moneyness, abs_of_nonneg])

/- ## Claims C8 and C9: percent profit and premium heuristics -/

/-- Claim C9, counterexample: the claimed formula uses `|strike - price|`, but
the covered-call estimator uses the signed distance, so at strike 90 and
price 100 it returns 50 while the claimed formula gives 100. -/
theorem premium_estimator_signed_distance :
    covered_call_est_premium 90 100 = 50 ∧
    max 0.5 (|(90:ℚ) - 100| * 0.1) * 100 = 100 ∧
    covered_call_est_premium 90 100 ≠ max 0.5 (|(90:ℚ) - 100| * 0.1) * 100 := by
  refine ⟨?_, ?_, ?_⟩ <;>
    norm_num [covered_call_est_premium, max_def, abs_of_nonpos]

/-- Claim C9 as amended: each estimator applies its floor to the signed strike
distance (the covered-call variant has no time term), so both always return a
premium at least the positive floor — never zero or negative — and on the side
each call site filters to (strike above price for calls, below for puts) the
signed distance equals `|strike - price|`, recovering the claimed formula. -/
theorem premium_estimator_behavior (strike price days : ℚ) (hd : 0 ≤ days) :
    50 ≤ covered_call_est_premium strike price ∧
    0 < covered_call_est_premium strike price ∧
    100 ≤ protective_put_est_premium strike price days ∧
    0 < protective_put_est_premium strike price days ∧
    (price ≤ strike →
      covered_call_est_premium strike price =
        max 0.5 (|strike - price| * 0.1) * 100) ∧
    (strike ≤ price →
      protective_put_est_premium strike price days =
        max 1.0 (|strike - price| * 0.15 + days / 365 * price * 0.02) * 100) := by
  have hc : (0.5:ℚ) ≤ max 0.5 ((strike - price) * 0.1) := le_max_left _ _
  have hp : (1.0:ℚ) ≤
      max 1.0 ((price - strike) * 0.15 + days / 365 * price * 0.02) := le_max_left _ _
  refine ⟨?_, ?_, ?_, ?_, ?_, ?_⟩
  · unfold covered_call_est_premium
    nlinarith
  · unfold covered_call_est_premium
    nlinarith
  · unfold protective_put_est_premium
    nlinarith
  · unfold protective_put_est_premium
    nlinarith
  · intro hps
    unfold covered_call_est_premium
    rw [abs_of_nonneg (by linarith)]
  · intro hsp
    unfold protective_put_est_premium
    rw [abs_sub_comm, abs_of_nonneg (by linarith)]

theorem premium_estimator_behavior_witness :
    50 ≤ covered_call_est_premium 105 100 ∧
    covered_call_est_premium 105 100 = max 0.5 (|(105:ℚ) - 100| * 0.1) * 100 :=
  ⟨(premium_estimator_behavior 105 100 30 (by decide)).1,
    (premium_estimator_behavior 105 100 30 (by decide)).2.2.2.2.1 (by decide)⟩

/-- Claim C8, counterexample: with a zero premium the source's
`(profit_loss / premium) * 100` is a float division by zero, so the evaluation
fails (Python `ZeroDivisionError`, embedded as `none`) instead of reporting an
explicit undefined/NaN outcome. -/
theorem profit_loss_pct_zero_premium_error :
    profit_loss_pct (-3) 0 = none := by
  norm_num [profit_loss_pct]

/-- Claim C8 as amended: for premium > 0 the evaluation reports
`profit_loss / premium * 100`, and at premium = 0 it fails with the division
error rather than reporting an undefined/NaN value. -/
theorem profit_loss_pct_behavior (pl premium : ℚ) :
    (premium = 0 → profit_loss_pct pl premium = none) ∧
    (premium ≠ 0 → profit_loss_pct pl premium = some (pl / premium * 100)) := by
  constructor
  · intro h
    simp [profit_loss_pct, h]
  · intro h
    simp [profit_loss_pct, h]

theorem profit_loss_pct_behavior_witness :
    profit_loss_pct 5 0 = none ∧ profit_loss_pct 5 2 = some 250 := by
  refine ⟨(profit_loss_pct_behavior 5 0).1 rfl, ?_⟩
  rw [(profit_loss_pct_behavior 5 2).2 (by decide)]
  norm_num

/- ## Claims C3, C4, C5 and C10: volatility rank -/

/-- Claim C3: whenever the close series passes the estimator's guards, the
returned rank equals the specification's four-step formula (simple returns,
annualized sample deviations of the last 30 and of all returns, and the
clamped volatility ratio). -/
theorem volatility_rank_refines_spec (closes : List ℚ) (r : ℝ)
    (h : calculate_iv_rank closes 30 = some r) :
    r = spec_volatility_rank closes 30 := by
  unfold calculate_iv_rank at h
  by_cases h1 : closes.length < 20
  · rw [if_pos h1] at h
    exact absurd h (by simp)
  rw [if_neg h1] at h
  by_cases h2 : 0 ∈ closes.dropLast
  · rw [if_pos h2] at h
    exact absurd h (by simp)
  rw [if_neg h2] at h
  have hr : r = iv_rank_value closes 30 := (Option.some.inj h).symm
  subst hr
  unfold iv_rank_value spec_volatility_rank clamp annualized_vol last_slice
  rw [if_neg (by norm_num : ¬(30 = 0))]

theorem volatility_rank_refines_spec_witness :
    calculate_iv_rank (List.replicate 20 (100:ℚ) ++ [101]) 30 =
      some (spec_volatility_rank (List.replicate 20 (100:ℚ) ++ [101]) 30) := by
  have h : calculate_iv_rank (List.replicate 20 (100:ℚ) ++ [101]) 30 =
      some (iv_rank_value (List.replicate 20 (100:ℚ) ++ [101]) 30) := by
    unfold calculate_iv_rank
    rw [if_neg (by decide), if_neg (by decide)]
  rw [h, volatility_rank_refines_spec _ _ h]

/-- Claim C4: for a constant close history (25 closes of 100) the source does
not report a failure; the two volatilities are 0, NumPy turns 0/0 into NaN,
and `min(100, max(0, nan))` returns the numeric rank 0 — the silent 0 the
claim rules out. -/
theorem iv_rank_constant_history_returns_zero :
    calculate_iv_rank (List.replicate 25 (100:ℚ)) 30 = some 0 := by
  unfold calculate_iv_rank
  rw [if_neg (by decide), if_neg (by decide)]
  have hdr : daily_returns (List.replicate 25 (100:ℚ)) = List.replicate 24 0 :=
    daily_returns_replicate 24 100
  have hls : last_slice 30 (List.replicate 24 (0:ℚ)) = List.replicate 24 0 := by
    simp [last_slice]
  unfold iv_rank_value annualized_vol sample_std
  rw [hdr, hls, sample_variance_replicate_zero]
  norm_num

/-- Claim C5, counterexample: a 21-close history is below the claimed
`max(2 * 30, 20) = 60` threshold, yet the estimator returns a numeric rank
instead of failing with `InsufficientData`. -/
theorem iv_rank_midlength_returns_value :
    (List.replicate 20 (100:ℚ) ++ [101]).length < max (2 * 30) 20 ∧
    (calculate_iv_rank (List.replicate 20 (100:ℚ) ++ [101]) 30).isSome = true := by
  constructor
  · decide
  · unfold calculate_iv_rank
    rw [if_neg (by decide), if_neg (by decide)]
    rfl

/-- Claim C5 as amended: the source's only data check is 20 closes, and the
failure outcome is the undifferentiated `None`; with fewer than 20 closes the
estimator returns `none`, and with at least 20 closes (and no zero close
before the last, which would raise in the returns computation) it never fails
for lack of data — it returns a numeric rank. -/
theorem iv_rank_min_history_check (closes : List ℚ) (days : ℕ) :
    (closes.length < 20 → calculate_iv_rank closes days = none) ∧
    (20 ≤ closes.length → 0 ∉ closes.dropLast →
      (calculate_iv_rank closes days).isSome = true) := by
  constructor
  · intro h
    unfold calculate_iv_rank
    rw [if_pos h]
  · intro h1 h2
    unfold calculate_iv_rank
    rw [if_neg (not_lt.mpr h1), if_neg h2]
    rfl

theorem iv_rank_min_history_check_witness :
    calculate_iv_rank (List.replicate 5 (100:ℚ)) 30 = none ∧
    (calculate_iv_rank (List.replicate 19 (100:ℚ) ++ [101]) 30).isSome = true :=
  ⟨(iv_rank_min_history_check (List.replicate 5 (100:ℚ)) 30).1 (by decide),
   (iv_rank_min_history_check (List.replicate 19 (100:ℚ) ++ [101]) 30).2
     (by decide) (by decide)⟩

/-- Claim C10: a history that passes the 20-close check with at most 31
closes yields at most 30 returns, so the `returns[-30:]` slice is the whole
return series; if the returns are not all identical both volatilities are
equal and positive, and the clamped ratio is exactly 100. -/
theorem iv_rank_window_saturates (closes : List ℚ)
    (h20 : 20 ≤ closes.length) (h31 : closes.length ≤ 31)
    (hz : 0 ∉ closes.dropLast)
    (hne : ∃ x ∈ daily_returns closes, ∃ y ∈ daily_returns closes, x ≠ y) :
    calculate_iv_rank closes 30 = some 100 := by
  have hvar : 0 < sample_variance (daily_returns closes) := sample_variance_pos _ hne
  have hlen : (daily_returns closes).length = closes.length - 1 :=
    daily_returns_length closes
  have hslice : last_slice 30 (daily_returns closes) = daily_returns closes := by
    unfold last_slice
    rw [if_neg (by norm_num : ¬(30 = 0))]
    have h0 : (daily_returns closes).length - 30 = 0 := by omega
    rw [h0, List.drop_zero]
  have hvol : 0 < annualized_vol (daily_returns closes) := by
    unfold annualized_vol sample_std
    have hs : (0:ℝ) < Real.sqrt ((sample_variance (daily_returns closes) : ℚ) : ℝ) :=
      Real.sqrt_pos.mpr (by exact_mod_cast hvar)
    have h252 : (0:ℝ) < Real.sqrt 252 := Real.sqrt_pos.mpr (by norm_num)
    exact mul_pos (mul_pos hs h252) (by norm_num)
  unfold calculate_iv_rank
  rw [if_neg (by omega), if_neg hz]
  unfold iv_rank_value
  rw [hslice, div_self (ne_of_gt hvol), one_mul]
  norm_num

theorem iv_rank_window_saturates_witness :
    calculate_iv_rank (List.replicate 20 (100:ℚ) ++ [102]) 30 = some 100 := by
  have hdr : daily_returns (List.replicate 20 (100:ℚ) ++ [102]) =
      List.replicate 19 0 ++ [(102 - 100) / 100] :=
    daily_returns_replicate_append 19 100 102
  refine iv_rank_window_saturates (List.replicate 20 (100:ℚ) ++ [102])
    (by decide) (by decide) (by decide)
    ⟨0, ?_, (102 - 100) / 100, ?_, by norm_num⟩
  · rw [hdr]
    simp
  · rw [hdr]
    simp
